import Mathlib

/-!
Shallow embedding of `omnivox.py` from the vanier-omnivox-wrapper repository.

The HTTP transport, the HTML query facility (pyquery) and the JS-literal
extractor (pyjsparser) are external collaborators of the source, specified
only by the interface they present (spec section 6).  They are modelled as
oracle interfaces: a `Portal` maps every issued `Request` to an `HttpResp`,
whose `text` field is the abstract view (`Doc`) of exactly the queries the
source performs on the response body.  Mutable `RequestsCookieJar` objects
are modelled by a `CookieStore` - a heap of jars addressed by index - so
that the source's copy-then-diverge cookie pattern (a fresh jar updated from
the session's jar) is observable, in contrast with sharing a reference.
Each operation additionally returns the list of network requests it issued
and whether the implicit-discovery branch ran, which instruments the
source's `if not self._semesters: await self.fetch()` guard.
-/

/-- Python exception kinds that the translated code can raise: `typeError`
(e.g. concatenating `str` with `None`), `indexError` (sequence index out of
range), `parseError` (pyjsparser failure, including an absent `onload`
attribute), `missingSchema` (`requests` invoked with `url=None`). -/
inductive PyErr where
  | typeError
  | indexError
  | parseError
  | missingSchema
deriving DecidableEq, Repr

/-- A cookie jar: name/value pairs (`RequestsCookieJar` flattened to
cookie names, which is all the source ever distinguishes). -/
abbrev Jar := List (String × String)

/-- Semantics of `RequestsCookieJar.update`: entries of `b` override
entries of `a` that carry the same name. -/
def jarUpdate (a b : Jar) : Jar :=
  a.filter (fun p => b.all (fun q => q.1 != p.1)) ++ b

/-- A heap of cookie jars; a jar reference is an index into `jars`.
This makes the distinction between copying a jar and aliasing it
observable, which the source's `__init__` relies on. -/
structure CookieStore where
  jars : List Jar
deriving DecidableEq

/-- Read the jar behind a reference (absent references read as empty). -/
def getJar (st : CookieStore) (r : Nat) : Jar :=
  st.jars.getD r []

/-- Overwrite the jar behind a reference. -/
def storeSet (st : CookieStore) (r : Nat) (j : Jar) : CookieStore :=
  ⟨st.jars.set r j⟩

/-- Allocate a fresh jar (models `RequestsCookieJar()`), returning its
reference. -/
def storeAlloc (st : CookieStore) (j : Jar) : Nat × CookieStore :=
  (st.jars.length, ⟨st.jars ++ [j]⟩)

/-- One `<option>` element under the semester `<select>`: its `value`
attribute, its text, and whether the `selected` attribute is present. -/
structure OptionElem where
  val : String
  text : String
  selected : Bool
deriving DecidableEq

/-- One `<td>` cell of a schedule row, viewed through the two queries the
source makes on a cell: `("span").text()` and `("a").text()` (empty string
when the child element is absent, as pyquery returns). -/
structure Cell where
  spanText : String
  aText : String
deriving DecidableEq

/-- One `<tr>` of the course table: its `children("td")`. -/
structure Row where
  tds : List Cell
deriving DecidableEq

/-- Abstract view of a parsed HTML document, with one field per query the
source performs.  `inputKValue` is `("input[name='k']").attr("value")`;
`bodyOnloadRedirect` is the result of `get_js_redirect` on the body tag
(`none` models an absent `onload` attribute or a script of the wrong
shape, both of which raise in the source); `ansessionOptions` is
`("select[name='AnSession']").children("option")`; `formAction` is
`("form").attr("action")`; `tbAvertissement` is the presence of the
`.tbAvertissement` no-results marker; `contentTables` is the list of
tables matched by `.tbContenantPageLayout table table`, each as its
`children("tr")`; `scheduleLinkHref` is the `href` of the schedule link
element (`none` when the element is absent); `userText` is the text of
the user-name element. -/
structure Doc where
  inputKValue : Option String
  bodyOnloadRedirect : Option String
  ansessionOptions : List OptionElem
  formAction : Option String
  tbAvertissement : Bool
  contentTables : List (List Row)
  scheduleLinkHref : Option String
  userText : String
deriving DecidableEq

/-- A document with every queried element absent. -/
def blankDoc : Doc :=
  ⟨none, none, [], none, false, [], none, ""⟩

/-- A network request issued by the wrapper (cookies and the fixed
User-Agent header accompany every request and are not part of the portal
oracle's input). -/
inductive Request where
  | get (url : String)
  | post (url : String) (data : List (String × String))
deriving DecidableEq

/-- A network response: status code, response cookies, parsed body. -/
structure HttpResp where
  status : Nat
  cookies : Jar
  text : Doc
deriving DecidableEq

/-- The remote portal, as the oracle mapping requests to responses. -/
structure Portal where
  respond : Request → HttpResp

/-- The domains used in the API (module constants of the source). -/
def VANIER_DOMAIN : String := "https://vaniercollege.omnivox.ca"

def LEA_DOMAIN : String := "https://vaniercollege-estd.omnivox.ca/estd"

def LOGIN_URL : String :=
  "https://vaniercollege.omnivox.ca/intr/Module/Identification/Login/Login.aspx?ReturnUrl=/intr"

def INTR_URL : String := "https://vaniercollege.omnivox.ca/intr/"

/-- Represents a semester (`OmnivoxSemester` in the source). -/
structure OmnivoxSemester where
  id : String
  name : String
  current : Bool
deriving DecidableEq

/-- Represents a course inside a semester schedule.  The source field
`section` is a Lean keyword and is rendered `sectionNum` here. -/
structure OmnivoxSemesterScheduleCourse where
  number : String
  sectionNum : String
  title : String
  teacher : String
deriving DecidableEq

/-- Represents a semester schedule (`courses` keeps table row order). -/
structure OmnivoxSemesterSchedule where
  semester : OmnivoxSemester
  courses : List OmnivoxSemesterScheduleCourse
deriving DecidableEq

/-- State of `LeaScheduleSelectionPage`: a reference to its own cookie
jar, the schedule reference read from the landing page (`None` when the
link element was absent), and the three lazily populated fields
`_semesters`, `_schedule_cache` and `_schedule_request_url`. -/
structure LeaScheduleSelectionPage where
  cookiesRef : Nat
  schedule_reference : Option String
  semestersF : Option (List OmnivoxSemester)
  schedule_cacheF : List (String × OmnivoxSemesterSchedule)
  schedule_request_urlF : Option String
deriving DecidableEq

/-- State of `OmnivoxSession`: a reference to its cookie jar and the
parsed landing-page document. -/
structure OmnivoxSession where
  cookiesRef : Nat
  homepage : Doc
deriving DecidableEq

/-- Constructor body of `LeaScheduleSelectionPage.__init__`: allocate a
fresh jar (`RequestsCookieJar()`), `update` it with the session's cookies,
leave `_semesters`/`_schedule_request_url` unset and the cache empty. -/
def leaPageInit (st : CookieStore) (sessionCookiesRef : Nat)
    (schedule_reference : Option String) :
    LeaScheduleSelectionPage × CookieStore :=
  let fresh := jarUpdate [] (getJar st sessionCookiesRef)
  let alloc := storeAlloc st fresh
  (⟨alloc.1, schedule_reference, none, [], none⟩, alloc.2)

/-- `OmnivoxSession.get_schedule_page`: read the `href` of the schedule
link element and build a `LeaScheduleSelectionPage` from it.  When the
element is absent, `attr("href")` yields `None` and the page is built
with an absent reference - no error is raised here. -/
def get_schedule_page (session : OmnivoxSession) (st : CookieStore) :
    LeaScheduleSelectionPage × CookieStore :=
  leaPageInit st session.cookiesRef session.homepage.scheduleLinkHref

/-- `OmnivoxSession.get_user_fullname`. -/
def get_user_fullname (session : OmnivoxSession) : String :=
  session.homepage.userText

/-- `get_js_redirect`: retrieve the target location of a JS auto
redirect.  The pyjsparser call and the dictionary path
`body[0].expression.arguments[0].value` are the excluded script-literal
extraction collaborator; an absent or ill-shaped script raises. -/
def get_js_redirect (doc : Doc) : Except PyErr String :=
  match doc.bodyOnloadRedirect with
  | none => .error .parseError
  | some loc => .ok loc

/-- Result of `fetch`: the updated store and page, the requests issued,
and the exception if one was raised (field mutations performed before the
raise are kept, as in Python). -/
structure FetchResult where
  store : CookieStore
  page : LeaScheduleSelectionPage
  trace : List Request
  err : Option PyErr
deriving DecidableEq

/-- `LeaScheduleSelectionPage.fetch`: three GETs (schedule reference on
the first subsystem, bridge URL, selection document), merging response
cookies of the first two into the page's jar; then parse every `<option>`
into a semester and record the form action as the schedule-request URL.
`_semesters` is assigned before the form action is read, so a missing
action (a `TypeError` from `str + None`) leaves `_semesters` set.  An
absent `schedule_reference` raises the same way before any request. -/
def fetch (env : Portal) (st : CookieStore) (page : LeaScheduleSelectionPage) :
    FetchResult :=
  match page.schedule_reference with
  | none => ⟨st, page, [], some .typeError⟩
  | some ref =>
    let req1 := Request.get (VANIER_DOMAIN ++ ref)
    let schedule_page_response := env.respond req1
    let st1 := storeSet st page.cookiesRef
      (jarUpdate (getJar st page.cookiesRef) schedule_page_response.cookies)
    match get_js_redirect schedule_page_response.text with
    | .error e => ⟨st1, page, [req1], some e⟩
    | .ok body_redirect_location =>
      let req2 := Request.get (LEA_DOMAIN ++ "/" ++ body_redirect_location)
      let session_load_response := env.respond req2
      let st2 := storeSet st1 page.cookiesRef
        (jarUpdate (getJar st1 page.cookiesRef) session_load_response.cookies)
      let req3 := Request.get (LEA_DOMAIN ++ "/hrre/horaire.ovx")
      let selection_response := env.respond req3
      let semesters := selection_response.text.ansessionOptions.map
        (fun o => OmnivoxSemester.mk o.val o.text o.selected)
      let page1 := { page with semestersF := some semesters }
      match selection_response.text.formAction with
      | none => ⟨st2, page1, [req1, req2, req3], some .typeError⟩
      | some action =>
        ⟨st2,
          { page1 with
            schedule_request_urlF := some (LEA_DOMAIN ++ "/hrre/" ++ action) },
          [req1, req2, req3], none⟩

/-- Truthiness of `self._semesters` in Python: `None` and the empty tuple
are both falsy. -/
def semestersFalsy : Option (List OmnivoxSemester) → Bool
  | none => true
  | some [] => true
  | some (_ :: _) => false

/-- Result of the `if not self._semesters: await self.fetch()` guard:
like `FetchResult`, plus whether the fetch branch ran. -/
structure EnsureResult where
  store : CookieStore
  page : LeaScheduleSelectionPage
  trace : List Request
  err : Option PyErr
  ranFetch : Bool
deriving DecidableEq

/-- The implicit-discovery guard shared by `get_current_semester`,
`get_all_semesters` and `get_schedule`. -/
def ensureFetched (env : Portal) (st : CookieStore)
    (page : LeaScheduleSelectionPage) : EnsureResult :=
  if semestersFalsy page.semestersF then
    let f := fetch env st page
    ⟨f.store, f.page, f.trace, f.err, true⟩
  else
    ⟨st, page, [], none, false⟩

/-- Result of a page operation: the updated store and page, the requests
issued, the returned value or the raised exception, and whether the
implicit discovery branch ran. -/
structure OpResult (α : Type) where
  store : CookieStore
  page : LeaScheduleSelectionPage
  trace : List Request
  out : Except PyErr α
  ranFetch : Bool

/-- `LeaScheduleSelectionPage.get_current_semester`: ensure discovery,
then return the first semester whose `current` flag is set, if any. -/
def get_current_semester (env : Portal) (st : CookieStore)
    (page : LeaScheduleSelectionPage) : OpResult (Option OmnivoxSemester) :=
  let f := ensureFetched env st page
  match f.err with
  | some e => ⟨f.store, f.page, f.trace, .error e, f.ranFetch⟩
  | none =>
    ⟨f.store, f.page, f.trace,
      .ok ((f.page.semestersF.getD []).find? (fun s => s.current)), f.ranFetch⟩

/-- `LeaScheduleSelectionPage.get_all_semesters`: ensure discovery, then
return the semester tuple. -/
def get_all_semesters (env : Portal) (st : CookieStore)
    (page : LeaScheduleSelectionPage) : OpResult (List OmnivoxSemester) :=
  let f := ensureFetched env st page
  match f.err with
  | some e => ⟨f.store, f.page, f.trace, .error e, f.ranFetch⟩
  | none =>
    ⟨f.store, f.page, f.trace, .ok (f.page.semestersF.getD []), f.ranFetch⟩

/-- Total reading of the four cells a data row is asked for (indices 1-4
of `children("td")`). -/
def courseOfRow (r : Row) : OmnivoxSemesterScheduleCourse :=
  ⟨(r.tds.getD 1 ⟨"", ""⟩).spanText, (r.tds.getD 2 ⟨"", ""⟩).spanText,
    (r.tds.getD 3 ⟨"", ""⟩).spanText, (r.tds.getD 4 ⟨"", ""⟩).aText⟩

/-- Loop body of the table translator: indexing `children("td")` at 1-4
raises `IndexError` when the row has fewer than five cells. -/
def translateRow (r : Row) : Except PyErr OmnivoxSemesterScheduleCourse :=
  if r.tds.length < 5 then .error .indexError else .ok (courseOfRow r)

/-- The rows visited by `for i in range(3, len(course_list_rows) - 1)`,
in index order. -/
def course_list_slice (rows : List Row) : List Row :=
  (List.range' 3 (rows.length - 1 - 3)).map (fun i => rows.getD i ⟨[]⟩)

/-- Schedule table translator (the parsing block of `get_schedule`):
if the `.tbAvertissement` marker is present there are no courses;
otherwise take the fourth nested table (index 3 - `IndexError` when
fewer exist) and translate rows `3 .. len - 2`. -/
def parseScheduleCourses (doc : Doc) :
    Except PyErr (List OmnivoxSemesterScheduleCourse) :=
  if doc.tbAvertissement then .ok []
  else
    match doc.contentTables.get? 3 with
    | none => .error .indexError
    | some course_list_rows =>
      (course_list_slice course_list_rows).mapM translateRow

/-- The form data of the schedule request POST. -/
def scheduleFormData (semesterId : String) : List (String × String) :=
  [("AnSession", semesterId), ("Confirm", "Obtain+my+schedule")]

/-- Overwriting insertion into the `_schedule_cache` dictionary. -/
def dictInsert {β : Type} (d : List (String × β)) (k : String) (v : β) :
    List (String × β) :=
  (k, v) :: d.filter (fun p => p.1 != k)

/-- The part of `get_schedule` below the cache check: POST the semester
id, resolve the script redirect to the results page, GET it, translate
the table, store the schedule in the cache and return it. -/
def get_schedule_fetch_part (env : Portal) (f : EnsureResult)
    (semester : OmnivoxSemester) : OpResult OmnivoxSemesterSchedule :=
  match f.page.schedule_request_urlF with
  | none => ⟨f.store, f.page, f.trace, .error .missingSchema, f.ranFetch⟩
  | some url =>
    let schedule_request := Request.post url (scheduleFormData semester.id)
    let schedule_request_response := env.respond schedule_request
    match get_js_redirect schedule_request_response.text with
    | .error e => ⟨f.store, f.page, f.trace ++ [schedule_request], .error e, f.ranFetch⟩
    | .ok loc =>
      let results_request := Request.get (LEA_DOMAIN ++ "/hrre/" ++ loc)
      let schedule_page_response := env.respond results_request
      match parseScheduleCourses schedule_page_response.text with
      | .error e =>
        ⟨f.store, f.page, f.trace ++ [schedule_request, results_request],
          .error e, f.ranFetch⟩
      | .ok courses =>
        let schedule : OmnivoxSemesterSchedule := ⟨semester, courses⟩
        ⟨f.store,
          { f.page with
            schedule_cacheF := dictInsert f.page.schedule_cacheF semester.id schedule },
          f.trace ++ [schedule_request, results_request], .ok schedule, f.ranFetch⟩

/-- `LeaScheduleSelectionPage.get_schedule`: ensure discovery; unless
`force`, return the cached schedule for `semester.id` when present;
otherwise perform the schedule fetch and cache its result. -/
def get_schedule (env : Portal) (st : CookieStore)
    (page : LeaScheduleSelectionPage) (semester : OmnivoxSemester)
    (force : Bool) : OpResult OmnivoxSemesterSchedule :=
  let f := ensureFetched env st page
  match f.err with
  | some e => ⟨f.store, f.page, f.trace, .error e, f.ranFetch⟩
  | none =>
    if force then get_schedule_fetch_part env f semester
    else
      match f.page.schedule_cacheF.lookup semester.id with
      | some sched => ⟨f.store, f.page, f.trace, .ok sched, f.ranFetch⟩
      | none => get_schedule_fetch_part env f semester

/-- The form data of the login POST; `requests` drops pairs whose value
is `None`, so an absent `k` field is omitted. -/
def loginFormData (student_id student_password : String) (k : Option String) :
    List (String × String) :=
  [("NoDA", student_id), ("PasswordEtu", student_password),
    ("TypeIdentification", "Etudiant")]
    ++ (match k with | none => [] | some kv => [("k", kv)])

/-- `login`: GET the login page, POST the credentials with the hidden `k`
token without following redirects; any status other than 302 yields no
session; otherwise merge cookies, POST the landing page, merge again and
build the session.  The function is total: no branch raises. -/
def login (env : Portal) (st : CookieStore)
    (student_id student_password : String) :
    Option OmnivoxSession × CookieStore :=
  let login_page_response := env.respond (Request.get LOGIN_URL)
  let k := login_page_response.text.inputKValue
  let login_post_response :=
    env.respond (Request.post LOGIN_URL (loginFormData student_id student_password k))
  if login_post_response.status ≠ 302 then (none, st)
  else
    let cookies := jarUpdate login_page_response.cookies login_post_response.cookies
    let homepage_response := env.respond (Request.post INTR_URL [])
    let cookies1 := jarUpdate cookies homepage_response.cookies
    let alloc := storeAlloc st cookies1
    (some ⟨alloc.1, homepage_response.text⟩, alloc.2)

/-! Concrete fixtures used by witnesses and counterexamples. -/

/-- A selection document with a script redirect, zero semester options
and a present form action. -/
def zeroOptionsDoc : Doc :=
  { blankDoc with bodyOnloadRedirect := some "load.ovx", formAction := some "visu.ovx" }

/-- A portal answering every request with `zeroOptionsDoc`. -/
def zeroOptionsPortal : Portal :=
  ⟨fun _ => ⟨200, [("sid", "1")], zeroOptionsDoc⟩⟩

/-- A selection document with a script redirect but no form element. -/
def noActionDoc : Doc :=
  { blankDoc with bodyOnloadRedirect := some "load.ovx" }

/-- A portal answering every request with `noActionDoc`. -/
def noActionPortal : Portal :=
  ⟨fun _ => ⟨200, [], noActionDoc⟩⟩

/-- A selection document whose two options both carry `selected`. -/
def twoSelectedDoc : Doc :=
  { blankDoc with
    bodyOnloadRedirect := some "load.ovx"
    ansessionOptions := [⟨"20181", "Fall 2018", true⟩, ⟨"20182", "Winter 2019", true⟩]
    formAction := some "visu.ovx" }

/-- A portal answering every request with `twoSelectedDoc`. -/
def twoSelectedPortal : Portal :=
  ⟨fun _ => ⟨200, [], twoSelectedDoc⟩⟩

/-- A selection document with one plain and one selected option. -/
def oneSelectedDoc : Doc :=
  { blankDoc with
    bodyOnloadRedirect := some "load.ovx"
    ansessionOptions := [⟨"20181", "Fall 2018", false⟩, ⟨"20182", "Winter 2019", true⟩]
    formAction := some "visu.ovx" }

/-- A portal answering every request with `oneSelectedDoc`. -/
def oneSelectedPortal : Portal :=
  ⟨fun _ => ⟨200, [], oneSelectedDoc⟩⟩

/-- A results document carrying the no-results marker (and a script
redirect, so the same portal can answer the schedule POST). -/
def markerDoc : Doc :=
  { blankDoc with bodyOnloadRedirect := some "res.ovx", tbAvertissement := true }

/-- A portal answering every request with `markerDoc`. -/
def markerPortal : Portal :=
  ⟨fun _ => ⟨200, [], markerDoc⟩⟩

/-- A fresh, undiscovered page with a known schedule reference. -/
def pageZ : LeaScheduleSelectionPage :=
  ⟨0, some "/ref", none, [], none⟩

/-- A one-jar store whose jar 0 is empty. -/
def storeZ : CookieStore := ⟨[[]]⟩

/-- A concrete semester. -/
def semFall : OmnivoxSemester := ⟨"20181", "Fall 2018", true⟩

/-- A semester whose id is not among any discovered set used here. -/
def semAlien : OmnivoxSemester := ⟨"99999", "Nowhere 9999", false⟩

/-- A concrete schedule for `semFall`. -/
def schedX : OmnivoxSemesterSchedule := ⟨semFall, []⟩

/-- A page whose discovery completed with an empty semester tuple and
whose cache already holds the schedule for `semFall.id`. -/
def emptyDiscoveredPage : LeaScheduleSelectionPage :=
  ⟨0, some "/ref", some [], [("20181", schedX)], some "u"⟩

/-- A discovered page with one semester and an empty cache. -/
def uncachedPage : LeaScheduleSelectionPage :=
  ⟨0, some "/ref", some [semFall], [], some "u"⟩

/-- A discovered page whose cache holds the schedule for `semFall.id`. -/
def cachedPage : LeaScheduleSelectionPage :=
  ⟨0, some "/ref", some [semFall], [("20181", schedX)], some "u"⟩

/-- A data row of the schedule table: an unused cell, then course
number, section, title (span texts) and teacher (link text). -/
def dataRow : Row :=
  ⟨[⟨"", ""⟩, ⟨"345-102-MQ", ""⟩, ⟨"00001", ""⟩, ⟨"Intro to X", ""⟩, ⟨"", "Jane Doe"⟩]⟩

/-- A header/spacer/footer row (never parsed). -/
def headerRow : Row := ⟨[]⟩

/-- A course table with three header rows, one data row, one footer. -/
def oneCourseTable : List Row :=
  [headerRow, headerRow, headerRow, dataRow, headerRow]

/-- A results document without the marker whose fourth nested table is
`oneCourseTable`. -/
def oneCourseDoc : Doc :=
  { blankDoc with contentTables := [[], [], [], oneCourseTable] }

/-! Helper lemmas shared by several claims. -/

/-- When the semester tuple is already set and non-empty, the implicit
discovery guard is a no-op. -/
theorem ensureFetched_of_nonempty {env : Portal} {st : CookieStore}
    {page : LeaScheduleSelectionPage} {s0 : OmnivoxSemester}
    {ss : List OmnivoxSemester} (h : page.semestersF = some (s0 :: ss)) :
    ensureFetched env st page = ⟨st, page, [], none, false⟩ := by
  simp [ensureFetched, h, semestersFalsy]

/-- The part of `get_schedule` below the cache check never touches the
store, the semester tuple, the schedule-request URL or the discovery
flag. -/
theorem get_schedule_fetch_part_frame (env : Portal) (f : EnsureResult)
    (sem : OmnivoxSemester) :
    (get_schedule_fetch_part env f sem).store = f.store ∧
    (get_schedule_fetch_part env f sem).page.semestersF = f.page.semestersF ∧
    (get_schedule_fetch_part env f sem).page.schedule_request_urlF
      = f.page.schedule_request_urlF ∧
    (get_schedule_fetch_part env f sem).ranFetch = f.ranFetch := by
  unfold get_schedule_fetch_part
  split
  · exact ⟨rfl, rfl, rfl, rfl⟩
  · rename_i url heq
    cases hjs : get_js_redirect (env.respond (Request.post url (scheduleFormData sem.id))).text with
    | error e => simp [hjs]
    | ok loc =>
      cases hp : parseScheduleCourses
          (env.respond (Request.get (LEA_DOMAIN ++ "/hrre/" ++ loc))).text with
      | error e => simp [hjs, hp]
      | ok cs => simp [hjs, hp]

/-- Looking up the key just inserted into the cache dictionary. -/
theorem lookup_dictInsert_self {β : Type} (d : List (String × β))
    (k : String) (v : β) : (dictInsert d k v).lookup k = some v := by
  simp [dictInsert, List.lookup]

/-- On a discovered page with a non-empty semester tuple, a cache hit
(without `force`) returns the cached schedule and performs nothing. -/
theorem get_schedule_hit_eq {env : Portal} {st : CookieStore}
    {page : LeaScheduleSelectionPage} {s0 : OmnivoxSemester}
    {ss : List OmnivoxSemester} {sem : OmnivoxSemester}
    {sched : OmnivoxSemesterSchedule}
    (h : page.semestersF = some (s0 :: ss))
    (hl : page.schedule_cacheF.lookup sem.id = some sched) :
    get_schedule env st page sem false = ⟨st, page, [], .ok sched, false⟩ := by
  unfold get_schedule
  rw [@ensureFetched_of_nonempty env st page s0 ss h]
  simp [hl]

/-- On a discovered page with a non-empty semester tuple, a cache miss
or a forced call performs exactly the schedule POST and the results GET,
stores the parsed schedule under the semester id and returns it. -/
theorem get_schedule_miss_eq {env : Portal} {st : CookieStore}
    {page : LeaScheduleSelectionPage} {s0 : OmnivoxSemester}
    {ss : List OmnivoxSemester} {sem : OmnivoxSemester} {url red : String}
    {cs : List OmnivoxSemesterScheduleCourse} {force : Bool}
    (h : page.semestersF = some (s0 :: ss))
    (hnc : force = true ∨ page.schedule_cacheF.lookup sem.id = none)
    (hurl : page.schedule_request_urlF = some url)
    (hred : (env.respond (Request.post url (scheduleFormData sem.id))).text.bodyOnloadRedirect
      = some red)
    (hparse : parseScheduleCourses
      (env.respond (Request.get (LEA_DOMAIN ++ "/hrre/" ++ red))).text = Except.ok cs) :
    get_schedule env st page sem force =
      ⟨st, { page with schedule_cacheF := dictInsert page.schedule_cacheF sem.id ⟨sem, cs⟩ },
        [Request.post url (scheduleFormData sem.id),
          Request.get (LEA_DOMAIN ++ "/hrre/" ++ red)],
        .ok ⟨sem, cs⟩, false⟩ := by
  have hpart : get_schedule_fetch_part env ⟨st, page, [], none, false⟩ sem =
      ⟨st, { page with schedule_cacheF := dictInsert page.schedule_cacheF sem.id ⟨sem, cs⟩ },
        [Request.post url (scheduleFormData sem.id),
          Request.get (LEA_DOMAIN ++ "/hrre/" ++ red)],
        .ok ⟨sem, cs⟩, false⟩ := by
    unfold get_schedule_fetch_part
    simp [hurl, get_js_redirect, hred, hparse]
  unfold get_schedule
  rw [@ensureFetched_of_nonempty env st page s0 ss h]
  rcases hnc with hf | hl
  · subst hf
    simpa using hpart
  · cases force
    · simpa [hl] using hpart
    · simpa using hpart

/-- A results document carrying the no-results marker translates to zero
courses, regardless of its tables. -/
theorem parseScheduleCourses_marker {doc : Doc} (h : doc.tbAvertissement = true) :
    parseScheduleCourses doc = .ok [] := by
  simp [parseScheduleCourses, h]

/-! Claim C1: login outcome versus the POST status. -/

/-- C1 counterexample: a portal whose login POST answers with status 301,
a redirect (3xx) status, still yields no session, refuting "login returns
a Session exactly when the POST response carries an HTTP redirect status
(3xx)". -/
theorem login_none_on_status_301 :
    300 ≤ ((Portal.mk (fun _ => HttpResp.mk 301 [] blankDoc)).respond
        (Request.post LOGIN_URL (loginFormData "x" "y" none))).status ∧
    ((Portal.mk (fun _ => HttpResp.mk 301 [] blankDoc)).respond
        (Request.post LOGIN_URL (loginFormData "x" "y" none))).status < 400 ∧
    (login (Portal.mk (fun _ => HttpResp.mk 301 [] blankDoc)) ⟨[]⟩ "x" "y").1 = none := by
  exact ⟨by decide, by decide, rfl⟩

/-- C1 (amended): `login` returns a session exactly when the login POST
response status equals 302; any other status - including every other
redirect status - yields `None`.  No branch of `login` raises: the
function is total into `Option`. -/
theorem login_isSome_iff_post_status_302 (env : Portal) (st : CookieStore)
    (student_id student_password : String) :
    (login env st student_id student_password).1.isSome = true ↔
      (env.respond (Request.post LOGIN_URL (loginFormData student_id student_password
        (env.respond (Request.get LOGIN_URL)).text.inputKValue))).status = 302 := by
  unfold login
  by_cases h : (env.respond (Request.post LOGIN_URL (loginFormData student_id
      student_password (env.respond (Request.get LOGIN_URL)).text.inputKValue))).status = 302
  · simp [h]
  · simp [h]

/-! Claim C3: fetch on a shape-mismatched selection document. -/

/-- C3 counterexample: on a selection document with zero `<option>`
elements (and a present form action), `fetch` completes without any
error and records an empty semester tuple - it does not fail with a
portal-shape-mismatch error. -/
theorem fetch_completes_on_zero_semesters :
    (fetch zeroOptionsPortal storeZ pageZ).err = none ∧
    (fetch zeroOptionsPortal storeZ pageZ).page.semestersF = some [] := by
  exact ⟨rfl, rfl⟩

/-- C3 (amended): a selection document whose semester select yields zero
options does not make `fetch` fail: it completes silently with an empty
semester tuple (whenever the form action is present); only a missing
form action makes `fetch` fail, and with a `TypeError` raised by
concatenating the absent attribute, not a dedicated shape-mismatch
error. -/
theorem fetch_zero_semesters_and_missing_action_behavior (env : Portal)
    (st : CookieStore) (page : LeaScheduleSelectionPage) (ref red : String)
    (href : page.schedule_reference = some ref)
    (hred : (env.respond (Request.get (VANIER_DOMAIN ++ ref))).text.bodyOnloadRedirect
      = some red) :
    (∀ action : String,
      (env.respond (Request.get (LEA_DOMAIN ++ "/hrre/horaire.ovx"))).text.ansessionOptions = [] →
      (env.respond (Request.get (LEA_DOMAIN ++ "/hrre/horaire.ovx"))).text.formAction = some action →
      (fetch env st page).err = none ∧ (fetch env st page).page.semestersF = some []) ∧
    ((env.respond (Request.get (LEA_DOMAIN ++ "/hrre/horaire.ovx"))).text.formAction = none →
      (fetch env st page).err = some PyErr.typeError) := by
  unfold fetch
  rw [href]
  simp only [get_js_redirect, hred]
  constructor
  · intro action hopts hact
    simp [hact, hopts]
  · intro hfa
    simp [hfa]

/-- C3 witness: both branches of the amended claim at concrete portals:
the zero-option portal completes with an empty tuple, the missing-action
portal raises a `TypeError`. -/
theorem fetch_zero_semesters_and_missing_action_behavior_witness :
    ((fetch zeroOptionsPortal storeZ pageZ).err = none ∧
      (fetch zeroOptionsPortal storeZ pageZ).page.semestersF = some []) ∧
    (fetch noActionPortal storeZ pageZ).err = some PyErr.typeError :=
  ⟨(fetch_zero_semesters_and_missing_action_behavior zeroOptionsPortal storeZ pageZ
      "/ref" "load.ovx" rfl rfl).1 "visu.ovx" rfl rfl,
    (fetch_zero_semesters_and_missing_action_behavior noActionPortal storeZ pageZ
      "/ref" "load.ovx" rfl rfl).2 rfl⟩

/-! Claim C7: get_schedule_page with an absent schedule link. -/

/-- C7 counterexample: with the schedule link element absent from the
landing page, `get_schedule_page` completes and hands back a
`LeaScheduleSelectionPage` (whose reference is absent) - it does not
fail with a navigation-not-found error. -/
theorem get_schedule_page_returns_page_without_link :
    (get_schedule_page ⟨0, blankDoc⟩ ⟨[[]]⟩).1 = ⟨1, none, none, [], none⟩ := by
  exact rfl

/-- C7 (amended): when the landing page lacks the schedule link element,
`get_schedule_page` raises nothing and returns a page whose
`schedule_reference` is absent; the failure surfaces only later, as a
`TypeError` from concatenating the absent reference, when `fetch` is
invoked on that page (before any request is issued). -/
theorem get_schedule_page_absent_link_behavior (session : OmnivoxSession)
    (st : CookieStore) (h : session.homepage.scheduleLinkHref = none) :
    (get_schedule_page session st).1.schedule_reference = none ∧
    ∀ env : Portal,
      (fetch env (get_schedule_page session st).2 (get_schedule_page session st).1).err
          = some PyErr.typeError ∧
      (fetch env (get_schedule_page session st).2 (get_schedule_page session st).1).trace
          = [] := by
  refine ⟨by simp [get_schedule_page, leaPageInit, h], fun env => ⟨?_, ?_⟩⟩ <;>
    simp [get_schedule_page, leaPageInit, h, fetch]

/-- C7 witness: the amended claim at a concrete session whose landing
page is blank. -/
theorem get_schedule_page_absent_link_behavior_witness :
    (get_schedule_page ⟨0, blankDoc⟩ ⟨[[]]⟩).1.schedule_reference = none ∧
    (fetch markerPortal (get_schedule_page ⟨0, blankDoc⟩ ⟨[[]]⟩).2
      (get_schedule_page ⟨0, blankDoc⟩ ⟨[[]]⟩).1).err = some PyErr.typeError :=
  ⟨(get_schedule_page_absent_link_behavior ⟨0, blankDoc⟩ ⟨[[]]⟩ rfl).1,
    ((get_schedule_page_absent_link_behavior ⟨0, blankDoc⟩ ⟨[[]]⟩ rfl).2 markerPortal).1⟩

/-! Claim C8: the current flag of discovered semesters. -/

/-- C8 counterexample: a selection document in which two `<option>`
elements both carry the selected marker makes `fetch` complete with two
semesters whose `current` flag is true, refuting "at most one has
current = true" for every selection document. -/
theorem fetch_two_current_semesters :
    (fetch twoSelectedPortal storeZ pageZ).err = none ∧
    ((fetch twoSelectedPortal storeZ pageZ).page.semestersF.getD []).countP
      (fun s => s.current) = 2 := by
  exact ⟨rfl, rfl⟩

/-- C8 (amended): discovery maps each `<option>` to a semester whose
`current` flag equals the presence of its selected marker, so the number
of current semesters equals the number of selected options; at most one
semester is current exactly when at most one option is selected - the
code enforces no uniqueness. -/
theorem fetch_current_iff_selected (env : Portal) (st : CookieStore)
    (page : LeaScheduleSelectionPage) (ref red : String)
    (href : page.schedule_reference = some ref)
    (hred : (env.respond (Request.get (VANIER_DOMAIN ++ ref))).text.bodyOnloadRedirect
      = some red) :
    (fetch env st page).page.semestersF =
      some ((env.respond (Request.get (LEA_DOMAIN ++ "/hrre/horaire.ovx"))).text.ansessionOptions.map
        (fun o => OmnivoxSemester.mk o.val o.text o.selected)) ∧
    ((env.respond (Request.get (LEA_DOMAIN ++ "/hrre/horaire.ovx"))).text.ansessionOptions.map
        (fun o => OmnivoxSemester.mk o.val o.text o.selected)).countP (fun s => s.current) =
      (env.respond (Request.get (LEA_DOMAIN ++ "/hrre/horaire.ovx"))).text.ansessionOptions.countP
        (fun o => o.selected) := by
  constructor
  · unfold fetch
    rw [href]
    simp only [get_js_redirect, hred]
    cases hfa : (env.respond (Request.get (LEA_DOMAIN ++ "/hrre/horaire.ovx"))).text.formAction <;>
      simp [hfa]
  · simp [List.countP_map]
    rfl

/-- C8 witness: the amended claim at a portal with one plain and one
selected option. -/
theorem fetch_current_iff_selected_witness :
    (fetch oneSelectedPortal storeZ pageZ).page.semestersF =
      some [⟨"20181", "Fall 2018", false⟩, ⟨"20182", "Winter 2019", true⟩] :=
  (fetch_current_iff_selected oneSelectedPortal storeZ pageZ "/ref" "load.ovx" rfl rfl).1

/-! Claim C2: the schedule cache discipline of get_schedule. -/

/-- C2 counterexample: a page whose completed discovery found an empty
semester tuple.  The cache holds an entry for the requested semester and
`force` is false, yet the call performs network requests (its trace is
non-empty: the truthiness guard re-runs discovery) before returning the
cached object - refuting "performs a network fetch only if no cache
entry exists". -/
theorem get_schedule_refetches_on_empty_semesters :
    emptyDiscoveredPage.schedule_cacheF.lookup semFall.id = some schedX ∧
    (get_schedule zeroOptionsPortal storeZ emptyDiscoveredPage semFall false).ranFetch = true ∧
    (get_schedule zeroOptionsPortal storeZ emptyDiscoveredPage semFall false).trace ≠ [] ∧
    (get_schedule zeroOptionsPortal storeZ emptyDiscoveredPage semFall false).out
      = .ok schedX := by
  refine ⟨rfl, rfl, by decide, rfl⟩

/-- C2 (amended): on a page whose discovered semester tuple is non-empty
(when it is empty, the source's truthiness guard re-runs discovery and
performs network requests even on a cache hit): without `force` a cache
hit under `s.id` returns the cached schedule with no network request and
no state change; a cache miss, or any forced call, performs exactly the
schedule POST and results GET, stores the fresh schedule under `s.id` -
overwriting any prior entry - and returns it. -/
theorem get_schedule_cache_discipline (env : Portal) (st : CookieStore)
    (page : LeaScheduleSelectionPage) (s0 : OmnivoxSemester)
    (ss : List OmnivoxSemester) (h : page.semestersF = some (s0 :: ss)) :
    (∀ sem sched, page.schedule_cacheF.lookup sem.id = some sched →
      get_schedule env st page sem false = ⟨st, page, [], .ok sched, false⟩) ∧
    (∀ sem url red cs,
      page.schedule_cacheF.lookup sem.id = none →
      page.schedule_request_urlF = some url →
      (env.respond (Request.post url (scheduleFormData sem.id))).text.bodyOnloadRedirect
        = some red →
      parseScheduleCourses (env.respond (Request.get (LEA_DOMAIN ++ "/hrre/" ++ red))).text
        = .ok cs →
      get_schedule env st page sem false =
        ⟨st, { page with schedule_cacheF := dictInsert page.schedule_cacheF sem.id ⟨sem, cs⟩ },
          [Request.post url (scheduleFormData sem.id),
            Request.get (LEA_DOMAIN ++ "/hrre/" ++ red)], .ok ⟨sem, cs⟩, false⟩) ∧
    (∀ sem url red cs,
      page.schedule_request_urlF = some url →
      (env.respond (Request.post url (scheduleFormData sem.id))).text.bodyOnloadRedirect
        = some red →
      parseScheduleCourses (env.respond (Request.get (LEA_DOMAIN ++ "/hrre/" ++ red))).text
        = .ok cs →
      get_schedule env st page sem true =
        ⟨st, { page with schedule_cacheF := dictInsert page.schedule_cacheF sem.id ⟨sem, cs⟩ },
          [Request.post url (scheduleFormData sem.id),
            Request.get (LEA_DOMAIN ++ "/hrre/" ++ red)], .ok ⟨sem, cs⟩, false⟩ ∧
      (dictInsert page.schedule_cacheF sem.id ⟨sem, cs⟩).lookup sem.id = some ⟨sem, cs⟩) := by
  refine ⟨fun sem sched hl => get_schedule_hit_eq h hl,
    fun sem url red cs hl hurl hred hparse =>
      get_schedule_miss_eq h (Or.inr hl) hurl hred hparse,
    fun sem url red cs hurl hred hparse =>
      ⟨get_schedule_miss_eq h (Or.inl rfl) hurl hred hparse,
        lookup_dictInsert_self _ _ _⟩⟩

/-- C2 witness: on a discovered one-semester page with a cached entry, a
plain call returns the cached object with an empty trace, and a forced
call performs the POST and GET and overwrites the entry. -/
theorem get_schedule_cache_discipline_witness :
    get_schedule markerPortal storeZ cachedPage semFall false
      = ⟨storeZ, cachedPage, [], .ok schedX, false⟩ ∧
    get_schedule markerPortal storeZ cachedPage semFall true
      = ⟨storeZ,
          { cachedPage with
            schedule_cacheF := dictInsert cachedPage.schedule_cacheF semFall.id ⟨semFall, []⟩ },
          [Request.post "u" (scheduleFormData semFall.id),
            Request.get (LEA_DOMAIN ++ "/hrre/res.ovx")], .ok ⟨semFall, []⟩, false⟩ :=
  ⟨(get_schedule_cache_discipline markerPortal storeZ cachedPage semFall [] rfl).1
      semFall schedX rfl,
    ((get_schedule_cache_discipline markerPortal storeZ cachedPage semFall [] rfl).2.2
      semFall "u" "res.ovx" [] rfl rfl rfl).1⟩

/-! Claim C4: implicit discovery runs at most once. -/

/-- C4 counterexample: with a selection document yielding zero options,
`get_all_semesters` completes once (returning the empty tuple, with
discovery having run), and the next query on the resulting page runs
discovery again - the truthiness guard sees the empty tuple as unset. -/
theorem discovery_reruns_after_empty_discovery :
    (get_all_semesters zeroOptionsPortal storeZ pageZ).out = .ok [] ∧
    (get_all_semesters zeroOptionsPortal storeZ pageZ).ranFetch = true ∧
    (get_all_semesters zeroOptionsPortal
        (get_all_semesters zeroOptionsPortal storeZ pageZ).store
        (get_all_semesters zeroOptionsPortal storeZ pageZ).page).ranFetch = true := by
  exact ⟨rfl, rfl, rfl⟩

/-- C4 (amended): implicit discovery does not re-run as long as the
discovered semester tuple is non-empty: every query on such a page skips
the fetch branch, reuses the discovered semesters and schedule-request
URL, and leaves them unchanged.  (When discovery found zero semesters
the falsy guard re-runs it on every query.) -/
theorem discovery_not_rerun_when_nonempty (env : Portal) (st : CookieStore)
    (page : LeaScheduleSelectionPage) (s0 : OmnivoxSemester)
    (ss : List OmnivoxSemester) (h : page.semestersF = some (s0 :: ss)) :
    get_current_semester env st page =
      ⟨st, page, [], .ok ((s0 :: ss).find? (fun s => s.current)), false⟩ ∧
    get_all_semesters env st page = ⟨st, page, [], .ok (s0 :: ss), false⟩ ∧
    ∀ sem force,
      (get_schedule env st page sem force).ranFetch = false ∧
      (get_schedule env st page sem force).page.semestersF = page.semestersF ∧
      (get_schedule env st page sem force).page.schedule_request_urlF
        = page.schedule_request_urlF := by
  have he := @ensureFetched_of_nonempty env st page s0 ss h
  refine ⟨?_, ?_, ?_⟩
  · unfold get_current_semester
    rw [he]
    simp [h]
  · unfold get_all_semesters
    rw [he]
    simp [h]
  · intro sem force
    have hf := get_schedule_fetch_part_frame env ⟨st, page, [], none, false⟩ sem
    unfold get_schedule
    rw [he]
    cases force
    · cases hl : page.schedule_cacheF.lookup sem.id
      · simpa [hl] using ⟨hf.2.2.2, hf.2.1, hf.2.2.1⟩
      · simp [hl]
    · simpa using ⟨hf.2.2.2, hf.2.1, hf.2.2.1⟩

/-- C4 witness: on a discovered one-semester page, a query re-uses the
discovered state and does not re-run discovery. -/
theorem discovery_not_rerun_when_nonempty_witness :
    get_all_semesters markerPortal storeZ uncachedPage
      = ⟨storeZ, uncachedPage, [], .ok [semFall], false⟩ ∧
    (get_schedule markerPortal storeZ uncachedPage semFall false).ranFetch = false :=
  ⟨(discovery_not_rerun_when_nonempty markerPortal storeZ uncachedPage semFall [] rfl).2.1,
    ((discovery_not_rerun_when_nonempty markerPortal storeZ uncachedPage semFall [] rfl).2.2
      semFall false).1⟩

/-! Claim C6: the no-results marker yields an empty schedule. -/

/-- C6 (confirmed): when the results page carries the no-results marker,
`get_schedule` returns normally with a schedule of zero courses and
caches it.  No hypothesis constrains the results page's tables: the
conclusion holds even when they could not be parsed, showing that table
parsing is not attempted. -/
theorem get_schedule_no_results_marker_empty (env : Portal) (st : CookieStore)
    (page : LeaScheduleSelectionPage) (s0 : OmnivoxSemester)
    (ss : List OmnivoxSemester) (sem : OmnivoxSemester) (url red : String)
    (h : page.semestersF = some (s0 :: ss))
    (hmiss : page.schedule_cacheF.lookup sem.id = none)
    (hurl : page.schedule_request_urlF = some url)
    (hred : (env.respond (Request.post url (scheduleFormData sem.id))).text.bodyOnloadRedirect
      = some red)
    (hmark : (env.respond (Request.get (LEA_DOMAIN ++ "/hrre/" ++ red))).text.tbAvertissement
      = true) :
    (get_schedule env st page sem false).out = .ok ⟨sem, []⟩ ∧
    (get_schedule env st page sem false).page.schedule_cacheF.lookup sem.id
      = some ⟨sem, []⟩ := by
  have hq := @get_schedule_miss_eq env st page s0 ss sem url red [] false
    h (Or.inr hmiss) hurl hred (parseScheduleCourses_marker hmark)
  rw [hq]
  exact ⟨rfl, lookup_dictInsert_self _ _ _⟩

/-- C6 witness: the marker portal at a discovered page yields the empty
schedule. -/
theorem get_schedule_no_results_marker_empty_witness :
    (get_schedule markerPortal storeZ uncachedPage semFall false).out
      = .ok ⟨semFall, []⟩ :=
  (get_schedule_no_results_marker_empty markerPortal storeZ uncachedPage semFall []
    semFall "u" "res.ovx" rfl rfl rfl rfl rfl).1

/-! Claim C10: get_schedule does not validate its semester argument. -/

/-- C10 (confirmed): for an arbitrary semester value - no hypothesis
relates it to the discovered set - an unforced, uncached call issues the
POST with exactly that semester's id in the `AnSession` field, returns a
schedule whose `semester` field is the argument itself, and caches the
result under that id. -/
theorem get_schedule_no_semester_validation (env : Portal) (st : CookieStore)
    (page : LeaScheduleSelectionPage) (s0 : OmnivoxSemester)
    (ss : List OmnivoxSemester) (sem : OmnivoxSemester) (url red : String)
    (cs : List OmnivoxSemesterScheduleCourse)
    (h : page.semestersF = some (s0 :: ss))
    (hmiss : page.schedule_cacheF.lookup sem.id = none)
    (hurl : page.schedule_request_urlF = some url)
    (hred : (env.respond (Request.post url
      [("AnSession", sem.id), ("Confirm", "Obtain+my+schedule")])).text.bodyOnloadRedirect
      = some red)
    (hparse : parseScheduleCourses
      (env.respond (Request.get (LEA_DOMAIN ++ "/hrre/" ++ red))).text = .ok cs) :
    (get_schedule env st page sem false).trace =
      [Request.post url [("AnSession", sem.id), ("Confirm", "Obtain+my+schedule")],
        Request.get (LEA_DOMAIN ++ "/hrre/" ++ red)] ∧
    (get_schedule env st page sem false).out = .ok ⟨sem, cs⟩ ∧
    (get_schedule env st page sem false).page.schedule_cacheF.lookup sem.id
      = some ⟨sem, cs⟩ := by
  have hq := @get_schedule_miss_eq env st page s0 ss sem url red cs false
    h (Or.inr hmiss) hurl hred hparse
  rw [hq]
  exact ⟨rfl, rfl, lookup_dictInsert_self _ _ _⟩

/-- C10 witness: a semester whose id is not among the discovered set is
fetched, returned as given, and cached under its own id. -/
theorem get_schedule_no_semester_validation_witness :
    semAlien.id ∉ (uncachedPage.semestersF.getD []).map (fun s => s.id) ∧
    (get_schedule markerPortal storeZ uncachedPage semAlien false).out
      = .ok ⟨semAlien, []⟩ ∧
    (get_schedule markerPortal storeZ uncachedPage semAlien false).page.schedule_cacheF.lookup
      semAlien.id = some ⟨semAlien, []⟩ :=
  ⟨by decide,
    (get_schedule_no_semester_validation markerPortal storeZ uncachedPage semFall []
      semAlien "u" "res.ovx" [] rfl rfl rfl rfl rfl).2.1,
    (get_schedule_no_semester_validation markerPortal storeZ uncachedPage semFall []
      semAlien "u" "res.ovx" [] rfl rfl rfl rfl rfl).2.2⟩

/-! Claim C5: the table translator on a well-shaped course table. -/

/-- Reading a list at the indices of a `range'` is a structural slice. -/
theorem range'_map_getD_eq_drop_take {α : Type} (d : α) :
    ∀ (k s : Nat) (l : List α), s + k ≤ l.length →
      (List.range' s k).map (fun i => l.getD i d) = (l.drop s).take k := by
  intro k
  induction k with
  | zero => intro s l _; simp
  | succ n ih =>
    intro s l hsl
    have hs : s < l.length := by omega
    rw [List.range'_succ, List.map_cons,
      ih (s + 1) l (by omega),
      ← List.getElem_cons_drop l s hs, List.take_succ_cons]
    congr 1
    simp [List.getD_eq_getElem?_getD, List.getElem?_eq_getElem hs]

/-- The rows visited by the source's `range(3, len - 1)` loop are the
rows after the first three and before the last. -/
theorem course_list_slice_eq (rows : List Row) (n : Nat)
    (hlen : rows.length = 3 + n + 1) :
    course_list_slice rows = (rows.drop 3).take n := by
  unfold course_list_slice
  have h1 : rows.length - 1 - 3 = n := by omega
  rw [h1]
  exact range'_map_getD_eq_drop_take ⟨[]⟩ n 3 rows (by omega)

/-- Translating a list of rows that all have at least five cells
succeeds row by row. -/
theorem mapM_translateRow_ok (l : List Row) (h : ∀ r ∈ l, 5 ≤ r.tds.length) :
    l.mapM translateRow = Except.ok (l.map courseOfRow) := by
  induction l with
  | nil => rfl
  | cons a t ih =>
    have hna : ¬ a.tds.length < 5 := by
      have := h a (List.mem_cons_self a t)
      omega
    have ha : translateRow a = .ok (courseOfRow a) := by
      simp [translateRow, hna]
    have ih' := ih (fun r hr => h r (List.mem_cons_of_mem a hr))
    rw [List.mapM_cons, ha, ih']
    rfl

/-- C5 (confirmed): on a results page without the no-results marker
whose course table has `3 + N + 1` rows, each data row carrying at least
the five expected cells, the translator returns exactly the `N` data
rows' courses, in row order, skipping the first three rows and the last
row. -/
theorem translator_returns_data_rows (doc : Doc) (rows : List Row) (n : Nat)
    (hmark : doc.tbAvertissement = false)
    (htab : doc.contentTables.get? 3 = some rows)
    (hlen : rows.length = 3 + n + 1)
    (hcells : ∀ r ∈ (rows.drop 3).take n, 5 ≤ r.tds.length) :
    parseScheduleCourses doc = .ok (((rows.drop 3).take n).map courseOfRow) ∧
    (((rows.drop 3).take n).map courseOfRow).length = n := by
  constructor
  · unfold parseScheduleCourses
    rw [hmark]
    simp only [Bool.false_eq_true, if_false, htab]
    rw [course_list_slice_eq rows n hlen]
    exact mapM_translateRow_ok _ hcells
  · simp only [List.length_map, List.length_take, List.length_drop, hlen]
    omega

/-- C5 witness: a five-row table (three headers, one data row, one
footer) translates to exactly the one course spelled by the data row. -/
theorem translator_returns_data_rows_witness :
    parseScheduleCourses oneCourseDoc =
      .ok [⟨"345-102-MQ", "00001", "Intro to X", "Jane Doe"⟩] :=
  (translator_returns_data_rows oneCourseDoc oneCourseTable 1 rfl rfl rfl
    (by decide)).1

/-! Claim C9: the page's cookie jar is an independent snapshot. -/

/-- Setting one jar leaves every other jar unchanged. -/
theorem getJar_storeSet_ne (st : CookieStore) (r r' : Nat) (j : Jar)
    (h : r ≠ r') : getJar (storeSet st r j) r' = getJar st r' := by
  unfold getJar storeSet
  simp [List.getD_eq_getElem?_getD, List.getElem?_set_ne h]

/-- Updating into an empty jar yields the update's contents. -/
theorem jarUpdate_nil (b : Jar) : jarUpdate [] b = b := rfl

/-- The jar just allocated at the end of the store. -/
theorem getJar_alloc_last (st : CookieStore) (j : Jar) :
    getJar ⟨st.jars ++ [j]⟩ st.jars.length = j := by
  unfold getJar
  simp [List.getD_eq_getElem?_getD, List.getElem?_concat_length]

/-- Allocation does not disturb existing jars. -/
theorem getJar_alloc_lt (st : CookieStore) (j : Jar) (r : Nat)
    (h : r < st.jars.length) : getJar ⟨st.jars ++ [j]⟩ r = getJar st r := by
  unfold getJar
  simp [List.getD_eq_getElem?_getD, List.getElem?_append_left h]

/-- `fetch` only ever writes the page's own jar. -/
theorem fetch_preserves_other_jars (env : Portal) (st : CookieStore)
    (page : LeaScheduleSelectionPage) (r : Nat) (h : r ≠ page.cookiesRef) :
    getJar (fetch env st page).store r = getJar st r := by
  have hne := Ne.symm h
  unfold fetch
  split
  · rfl
  · rename_i ref heq
    cases hjs : get_js_redirect (env.respond (Request.get (VANIER_DOMAIN ++ ref))).text with
    | error e =>
      simp [hjs, getJar_storeSet_ne _ _ _ _ hne]
    | ok red =>
      cases hfa : (env.respond (Request.get (LEA_DOMAIN ++ "/hrre/horaire.ovx"))).text.formAction with
      | none =>
        simp [hjs, hfa, getJar_storeSet_ne _ _ _ _ hne]
      | some a =>
        simp [hjs, hfa, getJar_storeSet_ne _ _ _ _ hne]

/-- The implicit-discovery guard only ever writes the page's own jar. -/
theorem ensureFetched_preserves_other_jars (env : Portal) (st : CookieStore)
    (page : LeaScheduleSelectionPage) (r : Nat) (h : r ≠ page.cookiesRef) :
    getJar (ensureFetched env st page).store r = getJar st r := by
  unfold ensureFetched
  split
  · exact fetch_preserves_other_jars env st page r h
  · rfl

/-- `get_schedule` changes the store only through the implicit discovery
guard (its own requests never merge response cookies). -/
theorem get_schedule_store_eq (env : Portal) (st : CookieStore)
    (page : LeaScheduleSelectionPage) (sem : OmnivoxSemester) (force : Bool) :
    (get_schedule env st page sem force).store = (ensureFetched env st page).store := by
  have hf : ∀ f : EnsureResult, (get_schedule_fetch_part env f sem).store = f.store :=
    fun f => (get_schedule_fetch_part_frame env f sem).1
  unfold get_schedule
  cases he : (ensureFetched env st page).err with
  | some e => simp [he]
  | none =>
    cases force with
    | true => simp [he, hf]
    | false =>
      cases hl : (ensureFetched env st page).page.schedule_cacheF.lookup sem.id with
      | some s => simp [he, hl]
      | none => simp [he, hl, hf]

/-- C9 (confirmed): a page built by `get_schedule_page` owns a fresh jar
distinct from the session's; its initial contents equal the session's
jar, the session's jar is untouched by the page's creation and by the
page's operations (`fetch`, `get_schedule`), and a later update of the
session's jar leaves the page's jar unchanged. -/
theorem cookie_jar_snapshot_independence (session : OmnivoxSession)
    (st : CookieStore) (h : session.cookiesRef < st.jars.length) :
    (get_schedule_page session st).1.cookiesRef ≠ session.cookiesRef ∧
    getJar (get_schedule_page session st).2 (get_schedule_page session st).1.cookiesRef
      = getJar st session.cookiesRef ∧
    getJar (get_schedule_page session st).2 session.cookiesRef
      = getJar st session.cookiesRef ∧
    (∀ env, getJar (fetch env (get_schedule_page session st).2
        (get_schedule_page session st).1).store session.cookiesRef
      = getJar (get_schedule_page session st).2 session.cookiesRef) ∧
    (∀ env sem force, getJar (get_schedule env (get_schedule_page session st).2
        (get_schedule_page session st).1 sem force).store session.cookiesRef
      = getJar (get_schedule_page session st).2 session.cookiesRef) ∧
    (∀ j, getJar (storeSet (get_schedule_page session st).2 session.cookiesRef j)
        (get_schedule_page session st).1.cookiesRef
      = getJar (get_schedule_page session st).2 (get_schedule_page session st).1.cookiesRef) := by
  have hne : session.cookiesRef ≠ (get_schedule_page session st).1.cookiesRef :=
    Nat.ne_of_lt h
  refine ⟨Ne.symm hne, ?_, ?_, ?_, ?_, ?_⟩
  · exact (getJar_alloc_last st _).trans (jarUpdate_nil _)
  · exact getJar_alloc_lt st _ session.cookiesRef h
  · intro env
    exact fetch_preserves_other_jars env _ _ session.cookiesRef hne
  · intro env sem force
    rw [get_schedule_store_eq]
    exact ensureFetched_preserves_other_jars env _ _ session.cookiesRef hne
  · intro j
    exact getJar_storeSet_ne _ session.cookiesRef _ j hne

/-- C9 witness: a concrete one-jar session store; the freshly created
page's jar snapshots the session cookie, and a fetch over the marker
portal leaves the session's jar intact. -/
theorem cookie_jar_snapshot_independence_witness :
    (get_schedule_page ⟨0, blankDoc⟩ ⟨[[("k", "v")]]⟩).1.cookiesRef ≠ 0 ∧
    getJar (fetch markerPortal (get_schedule_page ⟨0, blankDoc⟩ ⟨[[("k", "v")]]⟩).2
        (get_schedule_page ⟨0, blankDoc⟩ ⟨[[("k", "v")]]⟩).1).store 0
      = getJar (get_schedule_page ⟨0, blankDoc⟩ ⟨[[("k", "v")]]⟩).2 0 :=
  ⟨(cookie_jar_snapshot_independence ⟨0, blankDoc⟩ ⟨[[("k", "v")]]⟩ (by decide)).1,
    (cookie_jar_snapshot_independence ⟨0, blankDoc⟩ ⟨[[("k", "v")]]⟩
      (by decide)).2.2.2.1 markerPortal⟩
